import Mathlib

/-!
Verification development for the condoor terminal-automation engine.

Shallow embedding of the core of the source tree:
  * `condoor/fsm.py`        — the FSM engine (`FSM._compile`, `FSM.run`)
  * `condoor/connection.py` — `Connection._chain_indices`
  * `condoor/device.py`     — `Device.connect`, `Device.send`, `Device.execute_command`
  * `condoor/drivers/generic.py` — `Driver.update_config_mode`, `Driver.wait_for_string`
  * `condoor/actions.py`    — the FSM actions used by the dialogs above
  * `condoor/patterns.py`   — `PatternManager.pattern`
  * `condoor/hopinfo.py`    — `make_hop_info_from_url`, `HopInfo.is_valid`
  * `condoor/protocols/ssh.py` — `SSH.get_command`, `SSH.connect`, `SSH.fallback_to_sshv1`

Python strings are modelled as Lean `String`, Python `None`-able values as
`Option`, raised exceptions as an explicit `Exc` sum, and the pexpect
controller as an explicit state record plus a trace of `expect` outcomes.
-/

namespace Condoor

/-! ### Python string helpers -/

/-- Is `p` a leading segment of `l`?  Used to embed Python's `in` substring test. -/
def leadSeg : List Char → List Char → Bool
  | [], _ => true
  | _ :: _, [] => false
  | a :: as, b :: bs => a = b && leadSeg as bs

/-- Python `sub in s` on character lists. -/
def subSeg (p : List Char) : List Char → Bool
  | [] => leadSeg p []
  | c :: rest => leadSeg p (c :: rest) || subSeg p rest

/-- Python substring containment `sub in s`. -/
def strContainsSub (s sub : String) : Bool :=
  subSeg sub.data s.data

/-- Python `s.replace('\r', '')`: remove every carriage return. -/
def pyReplaceCR (s : String) : String :=
  String.mk (s.data.filter (fun c => c ≠ '\r'))

/-- Index of the first newline, as Python `s.find('\n')` but `Option`al. -/
def findNlIdx : List Char → Option Nat
  | [] => none
  | c :: rest => if c = '\n' then some 0 else (findNlIdx rest).map (· + 1)

/-- Python `s.find('\n')`: `-1` when absent. -/
def pyFindNl (s : String) : Int :=
  match findNlIdx s.data with
  | some i => (i : Int)
  | none => -1

/-- Python slice `s[i:]` for a non-negative index. -/
def pyDropChars (s : String) (i : Nat) : String :=
  String.mk (s.data.drop i)

/-! ### Exceptions (condoor/exceptions.py plus the pexpect signals) -/

/-- Exception values raised by the embedded code.  `pexpectTimeout` and
`pexpectEof` stand for the pexpect classes `TIMEOUT` and `EOF`. -/
inductive Exc where
  | connectionError (msg : String) (host : Option String)
  | connectionAuthError (msg : String) (host : Option String)
  | connectionTimeoutError (msg : String) (host : Option String)
  | commandSyntaxError (msg : String) (host : Option String) (command : Option String)
  | commandTimeoutError (msg : String) (host : Option String) (command : Option String)
  | invalidHopInfoError
  | keyError (msg : String)
  | attributeError (name : String)
  | pexpectTimeout
  | pexpectEof
  deriving Repr, DecidableEq

/-! ### FSM engine (condoor/fsm.py)

The controller (`ctx.ctrl`) is a record of the observable pexpect state:
`before`/`after` buffers set by each `expect`, the data written by `send`,
the liveness flag and the hostname reported in engine-level errors. -/

structure CtrlSt where
  hostname : Option String
  before : String
  after : String
  sentData : List String
  connected : Bool
  deriving Repr, DecidableEq

/-- FSM context (`FSM.Context` in fsm.py): device payload `σ`, controller,
current event index, state, finished flag, message and last pattern index. -/
structure Ctx (σ : Type) where
  device : σ
  ctrl : CtrlSt
  event : Option Nat
  state : Int
  finished : Bool
  msg : String
  pattern : Option Nat
  deriving Repr, DecidableEq

/-- Outcome of invoking a Python action callable: it returns a boolean after
mutating the context, or raises. -/
inductive ActResult (σ : Type) where
  | ret (ctx : Ctx σ) (ok : Bool)
  | raised (ctx : Ctx σ) (e : Exc)

/-- The three action variants dispatched by `FSM.run`: a callable, an
exception value (raised), or `None` (pure transition). -/
inductive FsmAction (σ : Type) where
  | fn (f : Ctx σ → ActResult σ)
  | raiseExc (e : Exc)
  | noAction

/-- One user-supplied transition row `(event, [states], next_state, action, timeout)`. -/
structure FsmTransition (P σ : Type) where
  event : P
  states : List Int
  nextState : Int
  action : FsmAction σ
  timeout : Nat

/-- Python `events.index(p)`: index of the first occurrence. -/
def findEventIndex {P : Type} [DecidableEq P] : List P → P → Option Nat
  | [], _ => none
  | q :: qs, p => if q = p then some 0 else (findEventIndex qs p).map (· + 1)

/-- Compiled transition table entry: `(next_state, action, timeout)`. -/
def FsmEntry (σ : Type) := Int × FsmAction σ × Nat

/-- Transition table: the dict `(event_index, state) → entry`. -/
def FsmTable (σ : Type) := List ((Nat × Int) × FsmEntry σ)

/-- Dict assignment: a later insert for the same key shadows an earlier one. -/
def tableInsert {σ : Type} (tbl : FsmTable σ) (k : Nat × Int) (v : FsmEntry σ) : FsmTable σ :=
  (k, v) :: tbl

/-- Dict lookup. -/
def tableLookup {σ : Type} (tbl : FsmTable σ) (k : Nat × Int) : Option (FsmEntry σ) :=
  (tbl.find? (fun kv => kv.1 = k)).map (·.2)

/-- One row of `FSM._compile`: a row naming an event absent from `events` is
dropped; otherwise it writes one entry per listed state. -/
def compileRow {P σ : Type} [DecidableEq P] (events : List P) (tbl : FsmTable σ)
    (t : FsmTransition P σ) : FsmTable σ :=
  match findEventIndex events t.event with
  | none => tbl
  | some i =>
    t.states.foldl (fun tbl2 s => tableInsert tbl2 (i, s) (t.nextState, t.action, t.timeout)) tbl

/-- `FSM._compile`. -/
def fsmCompile {P σ : Type} [DecidableEq P]
    (transitions : List (FsmTransition P σ)) (events : List P) : FsmTable σ :=
  transitions.foldl (compileRow events) []

/-- One observed outcome of a controller `expect` call: the index of the first
matching event together with the `before`/`after` buffers, or an EOF signal
(pexpect raising `EOF`). -/
inductive ExpectEvent where
  | matched (index : Nat) (before after : String)
  | eofSig
  deriving Repr, DecidableEq

instance {ε α : Type} [DecidableEq ε] [DecidableEq α] : DecidableEq (Except ε α) := fun x y =>
  match x, y with
  | Except.ok a, Except.ok b =>
    if h : a = b then isTrue (by rw [h]) else isFalse (by intro hh; cases hh; exact h rfl)
  | Except.ok _, Except.error _ => isFalse (by intro hh; cases hh)
  | Except.error _, Except.ok _ => isFalse (by intro hh; cases hh)
  | Except.error e, Except.error f =>
    if h : e = f then isTrue (by rw [h]) else isFalse (by intro hh; cases hh; exact h rfl)

/-- Result of `FSM.run` plus the final context (the externally visible
mutations performed by the actions). -/
structure RunOut (σ : Type) where
  result : Except Exc Bool
  ctx : Ctx σ
  deriving Repr, DecidableEq

/-- How one iteration acquires its event (fsm.py lines 157-167). -/
inductive AcquireOut (σ : Type) where
  | err (e : Exc)
  | cont
  | got (ctx : Ctx σ) (rest : List ExpectEvent)

/-- Event acquisition: with an `init_pattern` the event is its index in
`events` (an unknown pattern logs and continues); otherwise the controller's
`expect` consumes the next trace element, EOF raising, and a silent child
(exhausted trace) raising pexpect `TIMEOUT`. -/
def fsmAcquire {P σ : Type} [DecidableEq P] (events : List P) (initPat : Option P)
    (trace : List ExpectEvent) (ctx : Ctx σ) : AcquireOut σ :=
  match initPat with
  | some p =>
    match findEventIndex events p with
    | none => AcquireOut.cont
    | some i => AcquireOut.got { ctx with event := some i, pattern := some i } trace
  | none =>
    match trace with
    | [] => AcquireOut.err Exc.pexpectTimeout
    | ExpectEvent.eofSig :: _ =>
      AcquireOut.err (Exc.connectionError "Session closed unexpectedly" ctx.ctrl.hostname)
    | ExpectEvent.matched i b a :: rest =>
      AcquireOut.got
        { ctx with event := some i, pattern := some i,
                   ctrl := { ctx.ctrl with before := b, after := a } } rest

/-- The `while transition_counter < max_transitions` loop of `FSM.run`.
`fuel` is the number of remaining iterations.  A table miss warns and loops
without touching the state; a hit dispatches the action, replaces the timeout
when the row's timeout is nonzero, assigns the next state and stops with
success on `finished` or next state `-1`. -/
def fsmRunLoop {P σ : Type} [DecidableEq P] (events : List P) (table : FsmTable σ) :
    Nat → Option P → List ExpectEvent → Nat → Ctx σ → RunOut σ
  | 0, _, _, _, ctx => ⟨Except.ok false, ctx⟩
  | fuel + 1, initPat, trace, timeout, ctx =>
    match fsmAcquire events initPat trace ctx with
    | AcquireOut.err e => ⟨Except.error e, ctx⟩
    | AcquireOut.cont => fsmRunLoop events table fuel none trace timeout ctx
    | AcquireOut.got ctx1 rest =>
      match tableLookup table (ctx1.event.getD 0, ctx1.state) with
      | none => fsmRunLoop events table fuel none rest timeout ctx1
      | some (nextState, act, nextTimeout) =>
        let acted : ActResult σ :=
          match act with
          | FsmAction.fn f => f ctx1
          | FsmAction.raiseExc e => ActResult.raised ctx1 e
          | FsmAction.noAction => ActResult.ret ctx1 true
        match acted with
        | ActResult.raised ctx2 e => ⟨Except.error e, ctx2⟩
        | ActResult.ret ctx2 false => ⟨Except.ok false, ctx2⟩
        | ActResult.ret ctx2 true =>
          let timeout2 := if nextTimeout ≠ 0 then nextTimeout else timeout
          let ctx3 := { ctx2 with state := nextState }
          if ctx3.finished || nextState = -1 then ⟨Except.ok true, ctx3⟩
          else fsmRunLoop events table fuel none rest timeout2 ctx3

/-- `FSM.run`: compile the rows and start the loop from state 0 with
`max_transitions` iterations available. -/
def fsmRun {P σ : Type} [DecidableEq P] (device : σ) (ctrl : CtrlSt) (events : List P)
    (transitions : List (FsmTransition P σ)) (initPat : Option P) (timeout : Nat)
    (maxTransitions : Nat) (trace : List ExpectEvent) : RunOut σ :=
  fsmRunLoop events (fsmCompile transitions events) maxTransitions initPat trace timeout
    { device := device, ctrl := ctrl, event := none, state := 0, finished := false,
      msg := "", pattern := none }

/-! ### Connection chain rotation (connection.py `Connection._chain_indices`)

`_chain_indices` builds `deque(range(n))` and calls `deque.rotate(k)` with
`k = self._last_chain_index`; `Connection.connect` then tries the chains by
iterating the resulting sequence in order. -/

/-- One step of `deque.rotate(1)`: pop from the right end, push on the left. -/
def dequeRotateOne {α : Type} (l : List α) : List α :=
  match l.getLast? with
  | none => l
  | some x => x :: l.dropLast

/-- `deque.rotate(k)` for a non-negative `k`: `k` right-rotations. -/
def dequeRotate {α : Type} (l : List α) : Nat → List α
  | 0 => l
  | k + 1 => dequeRotate (dequeRotateOne l) k

/-- `Connection._chain_indices`: the order in which `connect` tries the `n`
chains, given the stored `_last_chain_index`. -/
def chainIndices (n lastChainIndex : Nat) : List Nat :=
  dequeRotate (List.range n) lastChainIndex

/-! ### Mode classification and Device.connect (device.py, drivers/generic.py) -/

/-- `Driver.update_config_mode` (generic.py lines 309-319): substring tests on
the prompt, in source order. -/
def updateConfigMode (prompt : String) : String :=
  if strContainsSub prompt "config" then "config"
  else if strContainsSub prompt "admin" then "admin"
  else "global"

/-- The `Device` fields read or written along `Device.connect`. -/
structure DevConnSt where
  prompt : Option String
  connected : Bool
  mode : Option String
  isTarget : Bool
  lastErrorMsg : Option String
  deriving Repr, DecidableEq

/-- Environment of one `Device.connect` call: outcomes of the protocol
sub-dialogs and of prompt detection, plus the prompts matched by
`a_expected_prompt` at the end of each command issued while
`_connected_to_target` runs its discovery sends. -/
structure DevConnEnv where
  protocolConnectOk : Bool
  authOk : Bool
  detectedPrompt : String
  discoveryPrompts : List String
  deriving Repr, DecidableEq

/-- Result of `Device.connect`: the Python return value (`True`, `False`, or
the implicit `None` when authentication fails), the final device fields, and
whether `self.chain.disconnect()` was called. -/
structure DevConnOut where
  result : Option Bool
  st : DevConnSt
  chainDisconnected : Bool
  deriving Repr, DecidableEq

/-- The prompt in effect after `try_read_prompt`/`detect_prompt`
(device.py lines 119-121): the stored prompt, else the freshly detected one. -/
def capturedPrompt (env : DevConnEnv) (st : DevConnSt) : String :=
  match st.prompt with
  | some p => p
  | none => env.detectedPrompt

/-- Effect of the discovery sends of `_connected_to_target` on the tracked
fields: each send's `wait_for_string` success runs `a_expected_prompt`
(actions.py lines 131-139), which stores the matched prompt and re-derives the
config mode from it.  The discovery attributes themselves (os type, version,
UDI, family, platform, console flag) are outside the tracked state. -/
def discoverySends (env : DevConnEnv) (st : DevConnSt) : DevConnSt :=
  env.discoveryPrompts.foldl
    (fun s p => { s with prompt := some p, mode := some (updateConfigMode p) }) st

/-- `Device.connect` (device.py lines 109-144) over the tracked fields.  The
prompt-matcher recompositions are regex plumbing with no effect on the tracked
fields and are omitted. -/
def deviceConnect (env : DevConnEnv) (st : DevConnSt) : DevConnOut :=
  if env.protocolConnectOk then
    if env.authOk then
      let prompt := capturedPrompt env st
      let st1 := { st with prompt := some prompt }
      if st1.isTarget then
        let mode := updateConfigMode prompt
        let st2 := { st1 with mode := some mode }
        -- source gate `self.mode is not None and self.mode != 'global'`:
        -- `update_config_mode` always yields a mode, so only the second conjunct decides
        if mode ≠ "global" then
          ⟨some false,
           { st2 with lastErrorMsg := some "Device is not in global mode. Disconnected." },
           true⟩
        else
          let st3 := { st2 with connected := true }
          ⟨some true, discoverySends env st3, false⟩
      else
        ⟨some true, { st1 with connected := true }, false⟩
    else
      ⟨none, st, false⟩
  else
    ⟨some false, { st with connected := false }, false⟩

/-! ### Send pipeline (device.py `Device.send` / `Device.execute_command`) -/

/-- Output post-processing of `Device.execute_command` (device.py lines
242-249): pick `last_command_result` when truthy, else `ctrl.before`; strip
carriage returns; drop everything through the first newline
(`output[output.find('\n') + 1:]`, hence nothing when no newline exists). -/
def executeCommandOutput (lastCmdResult : Option String) (before : String) : String :=
  let output :=
    match lastCmdResult with
    | some r => if r = "" then pyReplaceCR before else pyReplaceCR r
    | none => pyReplaceCR before
  let idx := (pyFindNl output + 1).toNat
  pyDropChars output idx

/-- Modelled from the spec: "the text strictly between the command echo and
the terminator (second line onwards, carriage returns stripped)" — keep
everything after the first newline of the CR-stripped text, for comparison
with `executeCommandOutput`. -/
def dropFirstLineChars : List Char → List Char
  | [] => []
  | c :: rest => if c = '\n' then rest else dropFirstLineChars rest

/-- Spec-side trimming: carriage returns removed, second line onwards. -/
def specSecondLineOnwards (s : String) : String :=
  String.mk (dropFirstLineChars (pyReplaceCR s).data)

/-- Device fields relevant to `Device.send`. -/
structure SendDev where
  connected : Bool
  hostname : String
  deriving Repr, DecidableEq

/-- What `driver.wait_for_string` did during `execute_command`: returned a
boolean (with the device's `last_command_result` and the controller's
`before` buffer as left by the dialog), or raised. -/
inductive WaitOutcome where
  | returns (b : Bool) (lastCmdResult : Option String) (before : String)
  | raises (e : Exc)
  deriving Repr, DecidableEq

/-- Result of `Device.send`: the returned output or raised exception, the
device fields afterwards, and the commands written to the controller. -/
structure SendOut where
  result : Except Exc String
  dev : SendDev
  sent : List String
  deriving Repr, DecidableEq

/-- `Device.execute_command` (device.py lines 229-270): clear
`last_command_result`, write the command, run `wait_for_string`, then either
post-process the output or translate the raised exception exactly as the
`except` clauses do. -/
def deviceExecuteCommand (dev : SendDev) (cmd : String) (w : WaitOutcome) : SendOut :=
  match w with
  | WaitOutcome.returns false _ _ =>
    ⟨Except.error (Exc.connectionError "Unexpected session disconnect" (some dev.hostname)),
     dev, [cmd]⟩
  | WaitOutcome.returns true lcr before =>
    ⟨Except.ok (executeCommandOutput lcr before), dev, [cmd]⟩
  | WaitOutcome.raises e =>
    match e with
    | Exc.commandSyntaxError msg host _ =>
      ⟨Except.error (Exc.commandSyntaxError msg host (some cmd)), dev, [cmd]⟩
    | Exc.commandTimeoutError _ _ _ =>
      ⟨Except.error (Exc.commandTimeoutError "Command timeout" (some dev.hostname) (some cmd)),
       dev, [cmd]⟩
    | Exc.pexpectTimeout =>
      ⟨Except.error (Exc.commandTimeoutError "Command timeout" (some dev.hostname) (some cmd)),
       dev, [cmd]⟩
    | Exc.connectionError msg host => ⟨Except.error (Exc.connectionError msg host), dev, [cmd]⟩
    | Exc.connectionAuthError msg host =>
      ⟨Except.error (Exc.connectionAuthError msg host), dev, [cmd]⟩
    | Exc.connectionTimeoutError msg host =>
      ⟨Except.error (Exc.connectionTimeoutError msg host), dev, [cmd]⟩
    | Exc.pexpectEof =>
      ⟨Except.error (Exc.connectionError "Unexpected session disconnect" (some dev.hostname)),
       dev, [cmd]⟩
    | _ =>
      ⟨Except.error (Exc.connectionError "Unexpected error" (some dev.hostname)), dev, [cmd]⟩

/-- `Device.send` (device.py lines 194-227): a disconnected device raises
`ConnectionError("Device not connected")` before anything is written. -/
def deviceSend (dev : SendDev) (cmd : String) (w : WaitOutcome) : SendOut :=
  if dev.connected then deviceExecuteCommand dev cmd w
  else ⟨Except.error (Exc.connectionError "Device not connected" (some dev.hostname)), dev, []⟩

/-! ### Pattern registry (patterns.py `PatternManager.pattern`) -/

/-- Python `dict.get(k)` on an association list. -/
def assocFind {α : Type} (l : List (String × α)) (k : String) : Option α :=
  (l.find? (fun kv => kv.1 = k)).map (·.2)

/-- Two-level registry: platform → pattern name → pattern text. -/
structure PatternRegistry where
  platforms : List (String × List (String × String))
  deriving Repr, DecidableEq

/-- `PatternManager._platform_patterns`: the per-platform map, or a `KeyError`
for an unknown platform. -/
def platformPatterns (reg : PatternRegistry) (platform : String) :
    Except Exc (List (String × String)) :=
  match assocFind reg.platforms platform with
  | none => Except.error (Exc.keyError ("Unknown platform: " ++ platform))
  | some pats => Except.ok pats

/-- `PatternManager.pattern` (patterns.py lines 76-93): look the key up on the
requested platform, fall back to `generic` (the default argument
`self._platform_patterns()` is evaluated eagerly, so a missing `generic`
platform errors even on a per-platform hit), and a miss on both sides raises
the corrupted-database `KeyError`. -/
def patternQuery (reg : PatternRegistry) (platform key : String) : Except Exc String :=
  match platformPatterns reg platform with
  | Except.error e => Except.error e
  | Except.ok pats =>
    match platformPatterns reg "generic" with
    | Except.error e => Except.error e
    | Except.ok gens =>
      match assocFind pats key with
      | some v => Except.ok v
      | none =>
        match assocFind gens key with
        | some v => Except.ok v
        | none =>
          Except.error
            (Exc.keyError ("Patterns database corrupted. Platform: " ++ platform
              ++ ", Key: " ++ key))

/-! ### Hop descriptors (hopinfo.py) -/

/-- The standard protocol → port mapping (`protocol2port_map`). -/
def protocol2port : String → Option Nat := fun p =>
  if p = "telnet" then some 23 else if p = "ssh" then some 22 else none

/-- A URL as decomposed by the Python stdlib `urlparse`/`parse_qs`
(external to the repository): scheme, credentials, host, port, path and the
ordered query parameters.  `username`/`password` are taken already
percent-decoded (`unquote` is also stdlib). -/
structure ParsedUrl where
  scheme : String
  username : Option String
  password : Option String
  hostname : Option String
  port : Option Nat
  path : String
  queryParams : List (String × String)
  deriving Repr, DecidableEq

/-- The hop descriptor (`HopInfo` fields). -/
structure HopInfo where
  protocol : String
  hostname : Option String
  username : Option String
  password : Option String
  enablePassword : Option String
  port : Option Nat
  deriving Repr, DecidableEq

/-- `parse_qs(query)[key][0]` with `KeyError → None`: first value of the key,
empty values being dropped by `parse_qs`'s default. -/
def parseQsFirst (qs : List (String × String)) (key : String) : Option String :=
  ((qs.filter (fun kv => kv.2 ≠ "")).find? (fun kv => kv.1 = key)).map (·.2)

/-- `HopInfo.__init__`: empty enable password becomes `None`; a falsy port is
replaced by the protocol's standard port. -/
def mkHopInfo (protocol : String) (hostname username password : Option String)
    (port : Option Nat) (enablePw : Option String) : HopInfo :=
  { protocol := protocol, hostname := hostname, username := username, password := password,
    enablePassword := if enablePw = some "" then none else enablePw,
    port :=
      match port with
      | some p => if p = 0 then protocol2port protocol else some p
      | none => protocol2port protocol }

/-- `HopInfo.is_valid` (hopinfo.py lines 111-115): only the protocol is
checked. -/
def hopIsValid (h : HopInfo) : Bool :=
  h.protocol = "telnet" || h.protocol = "ssh"

/-- `make_hop_info_from_url` (hopinfo.py lines 15-62): the enable password is
read from the query string only (the `path` component is never consulted), the
descriptor is built, and an invalid descriptor raises
`InvalidHopInfoError`. -/
def makeHopInfoFromUrl (u : ParsedUrl) : Except Exc HopInfo :=
  let enablePw := parseQsFirst u.queryParams "enable_password"
  let hop := mkHopInfo u.scheme u.hostname u.username u.password u.port enablePw
  if hopIsValid hop then Except.ok hop else Except.error Exc.invalidHopInfoError

/-! ### wait_for_string (drivers/generic.py lines 190-218) -/

/-- `a_send` (actions.py): write `text` to the controller, keep going. -/
def aSendGen {σ : Type} (text : String) (ctx : Ctx σ) : ActResult σ :=
  ActResult.ret { ctx with ctrl := { ctx.ctrl with sentData := ctx.ctrl.sentData ++ [text] } } true

/-- `a_send_line` (actions.py): write `text` plus a line separator. -/
def aSendLineGen {σ : Type} (text : String) (ctx : Ctx σ) : ActResult σ :=
  ActResult.ret
    { ctx with ctrl := { ctx.ctrl with sentData := ctx.ctrl.sentData ++ [text ++ "\n"] } } true

/-- Device fields touched by the `wait_for_string` actions. -/
structure WfsDevice where
  connected : Bool
  prompt : String
  driverPlatform : String
  mode : String
  hostname : String
  deriving Repr, DecidableEq

/-- Environment closed over by `a_expected_prompt`: the Pattern-Manager prompt
classifier (`pattern_manager.platform`) behind `update_driver`, and the
hostname extraction regex behind `update_hostname`. -/
structure WfsEnv where
  classifyPlatform : String → Option String
  extractHostname : String → Option String

/-- `a_connection_closed`: note the message, mark the device disconnected and
keep running (to detect the jumphost prompt). -/
def aConnectionClosed (ctx : Ctx WfsDevice) : ActResult WfsDevice :=
  ActResult.ret
    { ctx with msg := "Device disconnected",
               device := { ctx.device with connected := false } } true

/-- `a_stays_connected`: the controller stays connected, the device does not. -/
def aStaysConnected (ctx : Ctx WfsDevice) : ActResult WfsDevice :=
  ActResult.ret
    { ctx with ctrl := { ctx.ctrl with connected := true },
               device := { ctx.device with connected := false } } true

/-- `a_expected_prompt`: store the matched prompt, re-derive driver, config
mode and hostname from it, and finish. -/
def aExpectedPrompt (env : WfsEnv) (ctx : Ctx WfsDevice) : ActResult WfsDevice :=
  let p := ctx.ctrl.after
  let dev := ctx.device
  let dev :=
    { dev with prompt := p,
               driverPlatform := (env.classifyPlatform p).getD dev.driverPlatform,
               mode := updateConfigMode p,
               hostname := (env.extractHostname p).getD dev.hostname }
  ActResult.ret { ctx with device := dev, finished := true } true

/-- `a_unexpected_prompt` (actions.py lines 110-117): record the jump-host
prompt in the context message, mark the device disconnected, and raise
`ConnectionError` with the fixed message. -/
def aUnexpectedPrompt (ctx : Ctx WfsDevice) : ActResult WfsDevice :=
  let p := ctx.ctrl.after
  ActResult.raised
    { ctx with msg := "Received the jump host prompt: '" ++ p ++ "'",
               device := { ctx.device with connected := false },
               finished := true }
    (Exc.connectionError "Unable to connect to the device." ctx.ctrl.hostname)

/-- The event patterns of `wait_for_string`, as distinct regex objects:
the eight fixed events, the never-matching sentinel `(?!x)x` contributed by
`Chain.get_previous_prompts`, and one pattern per previous hop. -/
inductive WfsPattern where
  | syntaxError
  | connClosed
  | expected
  | pressReturn
  | more
  | timeoutP
  | eofP
  | bufferOverflow
  | sentinel
  | prevPrompt (i : Nat)
  deriving Repr, DecidableEq

/-- The previous-hop prompt patterns, in chain order. -/
def prevPromptEvents : Nat → List WfsPattern
  | 0 => []
  | n + 1 => prevPromptEvents n ++ [WfsPattern.prevPrompt n]

/-- The `events` list of `wait_for_string`: indices 0-7 fixed, 8 the sentinel,
`9 + j` the prompt of previous hop `j`. -/
def wfsEvents (nPrev : Nat) : List WfsPattern :=
  [WfsPattern.syntaxError, WfsPattern.connClosed, WfsPattern.expected, WfsPattern.pressReturn,
   WfsPattern.more, WfsPattern.timeoutP, WfsPattern.eofP, WfsPattern.bufferOverflow,
   WfsPattern.sentinel] ++ prevPromptEvents nPrev

/-- The fixed transition rows of `wait_for_string`, in source order. -/
def wfsBaseRows (env : WfsEnv) (devHost : Option String) :
    List (FsmTransition WfsPattern WfsDevice) :=
  [⟨WfsPattern.syntaxError, [0], -1,
    FsmAction.raiseExc (Exc.commandSyntaxError "Command unknown" devHost none), 0⟩,
   ⟨WfsPattern.connClosed, [0], 1, FsmAction.fn aConnectionClosed, 10⟩,
   ⟨WfsPattern.timeoutP, [0], -1,
    FsmAction.raiseExc (Exc.commandTimeoutError "Timeout waiting for prompt" devHost none), 0⟩,
   ⟨WfsPattern.eofP, [0, 1], -1,
    FsmAction.raiseExc (Exc.connectionError "Unexpected device disconnect" devHost), 0⟩,
   ⟨WfsPattern.more, [0], 0, FsmAction.fn (aSendGen " "), 10⟩,
   ⟨WfsPattern.expected, [0, 1], -1, FsmAction.fn (aExpectedPrompt env), 0⟩,
   ⟨WfsPattern.pressReturn, [0], -1, FsmAction.fn aStaysConnected, 0⟩,
   ⟨WfsPattern.bufferOverflow, [0], -1,
    FsmAction.raiseExc (Exc.commandSyntaxError "Command too long" devHost none), 0⟩]

/-- The appended previous-hop rows `(prompt, [0, 1], 0, a_unexpected_prompt, 0)`. -/
def wfsPromptRows : Nat → List (FsmTransition WfsPattern WfsDevice)
  | 0 => []
  | n + 1 =>
    wfsPromptRows n
      ++ [⟨WfsPattern.prevPrompt n, [0, 1], 0, FsmAction.fn aUnexpectedPrompt, 0⟩]

/-- All transition rows of `wait_for_string`. -/
def wfsTransitions (env : WfsEnv) (devHost : Option String) (nPrev : Nat) :
    List (FsmTransition WfsPattern WfsDevice) :=
  wfsBaseRows env devHost ++ wfsPromptRows nPrev

/-- `Driver.wait_for_string`: run the FSM with the default 20 transitions. -/
def wfsRun (env : WfsEnv) (devHost : Option String) (nPrev : Nat) (dev : WfsDevice)
    (ctrl : CtrlSt) (trace : List ExpectEvent) (timeout : Nat) : RunOut WfsDevice :=
  fsmRun dev ctrl (wfsEvents nPrev) (wfsTransitions env devHost nPrev) none timeout 20 trace

/-- A no-op classification environment: no platform re-classification, no
hostname extraction (both fall back to the current values, as in the source
when the regexes do not match). -/
def wfsEnvNop : WfsEnv := ⟨fun _ => none, fun _ => none⟩

/-! ### SSH protocol adapter (protocols/ssh.py) -/

/-- Python `str.strip()`. -/
def pyStrip (s : String) : String := s.trim

/-- Python `str.splitlines()` worker, treating a CRLF pair as one break. -/
def splitLinesGo : List Char → List Char → List (List Char)
  | [], [] => []
  | [], acc => [acc.reverse]
  | '\r' :: '\n' :: rest, acc => acc.reverse :: splitLinesGo rest []
  | '\r' :: rest, acc => acc.reverse :: splitLinesGo rest []
  | '\n' :: rest, acc => acc.reverse :: splitLinesGo rest []
  | c :: rest, acc => splitLinesGo rest (c :: acc)

/-- Python `str.splitlines()`. -/
def pySplitLines (s : String) : List String :=
  (splitLinesGo s.data []).map String.mk

/-- `message.strip().splitlines()[-1]` from `a_unable_to_connect`. -/
def lastLineOf (s : String) : String :=
  match (pySplitLines (pyStrip s)).getLast? with
  | some l => l
  | none => ""

/-- Protocol-object fields touched by the SSH connect actions. -/
structure SshSt where
  spawns : List String
  lastPattern : Option Nat
  lastErrorMsg : Option String
  deriving Repr, DecidableEq

/-- The attributes `FSM.Context.__init__` assigns (fsm.py lines 68-82); a
Python attribute access on the context outside this list raises
`AttributeError`. -/
def fsmContextAttrs : List String :=
  ["device", "ctrl", "fsm_name", "event", "state", "finished", "msg", "pattern"]

/-- Python attribute lookup on the FSM context. -/
def pyGetAttr (attrs : List String) (name : String) : Except Exc Unit :=
  if name ∈ attrs then Except.ok () else Except.error (Exc.attributeError name)

/-- `a_save_last_pattern`: remember the pattern that matched. -/
def aSaveLastPattern (ctx : Ctx SshSt) : ActResult SshSt :=
  ActResult.ret { ctx with device := { ctx.device with lastPattern := ctx.pattern } } true

/-- `a_unable_to_connect`: keep the last line of the session tail as the error
message and stop with failure. -/
def aUnableToConnect (ctx : Ctx SshSt) : ActResult SshSt :=
  let message := lastLineOf (ctx.ctrl.before ++ ctx.ctrl.after)
  ActResult.ret
    { ctx with msg := message,
               device := { ctx.device with lastErrorMsg := some message } } false

/-- `SSH.get_command(version)` (protocols/ssh.py lines 35-51). -/
def sshGetCommand (username : Option String) (port : Nat) (hostname : String)
    (version : Nat) : String :=
  match username with
  | some u =>
    "ssh -o UserKnownHostsFile=/dev/null -o StrictHostKeyChecking=no -"
      ++ toString version ++ " -p " ++ toString port ++ " " ++ u ++ "@" ++ hostname
  | none =>
    "ssh -o UserKnownHostsFile=/dev/null -o StrictHostKeyChecking=no -"
      ++ toString version ++ " -p " ++ toString port ++ " " ++ hostname

/-- `SSH.fallback_to_sshv1` (protocols/ssh.py lines 107-113): build the `-1`
command, then call `ctx.spawn_session(command)` — an attribute the FSM context
does not define. -/
def sshFallback (fallbackCmd : String) (ctx : Ctx SshSt) : ActResult SshSt :=
  match pyGetAttr fsmContextAttrs "spawn_session" with
  | Except.error e => ActResult.raised ctx e
  | Except.ok _ =>
    ActResult.ret
      { ctx with device := { ctx.device with spawns := ctx.device.spawns ++ [fallbackCmd] } }
      true

/-- Event patterns of `SSH.connect`, indices 0-9 in source order. -/
inductive SshPattern where
  | passwordRe
  | promptRe
  | unableToConnect
  | newSshKey
  | knownHosts
  | hostKeyFailed
  | modulusTooSmall
  | protocolDiffer
  | timeoutRe
  | timeoutP
  deriving Repr, DecidableEq

/-- The `events` list of `SSH.connect`. -/
def sshEvents : List SshPattern :=
  [SshPattern.passwordRe, SshPattern.promptRe, SshPattern.unableToConnect,
   SshPattern.newSshKey, SshPattern.knownHosts, SshPattern.hostKeyFailed,
   SshPattern.modulusTooSmall, SshPattern.protocolDiffer, SshPattern.timeoutRe,
   SshPattern.timeoutP]

/-- The transition rows of `SSH.connect`, in source order. -/
def sshConnectTransitions (protoHost : Option String) (fallbackCmd : String) :
    List (FsmTransition SshPattern SshSt) :=
  [⟨SshPattern.passwordRe, [0, 1, 4, 5], -1, FsmAction.fn aSaveLastPattern, 0⟩,
   ⟨SshPattern.promptRe, [0], -1, FsmAction.fn aSaveLastPattern, 0⟩,
   ⟨SshPattern.unableToConnect, [0], -1, FsmAction.fn aUnableToConnect, 0⟩,
   ⟨SshPattern.newSshKey, [0], 1, FsmAction.fn (aSendLineGen "yes"), 10⟩,
   ⟨SshPattern.knownHosts, [0, 1], 0, FsmAction.noAction, 0⟩,
   ⟨SshPattern.hostKeyFailed, [0], -1,
    FsmAction.raiseExc (Exc.connectionError "Host key failed" protoHost), 0⟩,
   ⟨SshPattern.modulusTooSmall, [0], 0, FsmAction.fn (sshFallback fallbackCmd), 0⟩,
   ⟨SshPattern.protocolDiffer, [0], 4, FsmAction.fn (sshFallback fallbackCmd), 0⟩,
   ⟨SshPattern.protocolDiffer, [4], -1,
    FsmAction.raiseExc (Exc.connectionError "Protocol version differs" protoHost), 0⟩,
   ⟨SshPattern.timeoutP, [0], 5, FsmAction.fn (aSendGen "\r\n"), 10⟩,
   ⟨SshPattern.timeoutP, [5], -1,
    FsmAction.raiseExc (Exc.connectionTimeoutError "Connection timeout" protoHost), 0⟩,
   ⟨SshPattern.timeoutRe, [0], -1,
    FsmAction.raiseExc (Exc.connectionTimeoutError "Connection timeout" protoHost), 0⟩]

/-- `SSH.connect`: run the connect FSM; the fallback action closes over the
`get_command(version=1)` string. -/
def sshConnect (protoHost : Option String) (username : Option String) (port : Nat)
    (hostname : String) (dev : SshSt) (ctrl : CtrlSt) (trace : List ExpectEvent)
    (connectTimeout : Nat) : RunOut SshSt :=
  fsmRun dev ctrl sshEvents
    (sshConnectTransitions protoHost (sshGetCommand username port hostname 1))
    none connectTimeout 20 trace

end Condoor

namespace Condoor

/-- C1: a transition-table miss is non-fatal — the iteration leaves the state
unchanged and the run continues by re-expecting; exhausting `max_transitions`
makes the run return `false`; and an EOF signalled during `expect` always
raises a `ConnectionError` rather than returning. -/
theorem fsm_failure_semantics {P σ : Type} [DecidableEq P] :
    (∀ (events : List P) (table : FsmTable σ) (fuel : Nat) (i : Nat) (b a : String)
        (rest : List ExpectEvent) (timeout : Nat) (ctx : Ctx σ),
        tableLookup table (i, ctx.state) = none →
        fsmRunLoop events table (fuel + 1) none (ExpectEvent.matched i b a :: rest) timeout ctx =
          fsmRunLoop events table fuel none rest timeout
            { ctx with event := some i, pattern := some i,
                       ctrl := { ctx.ctrl with before := b, after := a } })
    ∧ (∀ (events : List P) (table : FsmTable σ) (initPat : Option P)
        (trace : List ExpectEvent) (timeout : Nat) (ctx : Ctx σ),
        fsmRunLoop events table 0 initPat trace timeout ctx = ⟨Except.ok false, ctx⟩)
    ∧ (∀ (events : List P) (table : FsmTable σ) (fuel : Nat)
        (trace : List ExpectEvent) (timeout : Nat) (ctx : Ctx σ),
        fsmRunLoop events table (fuel + 1) none (ExpectEvent.eofSig :: trace) timeout ctx =
          ⟨Except.error (Exc.connectionError "Session closed unexpectedly" ctx.ctrl.hostname),
           ctx⟩) := by
  refine ⟨?_, ?_, ?_⟩
  · intro events table fuel i b a rest timeout ctx hmiss
    simp only [fsmRunLoop, fsmAcquire, Option.getD_some, hmiss]
  · intro events table initPat trace timeout ctx
    rfl
  · intro events table fuel trace timeout ctx
    rfl

/-- Helper: folding the discovery-prompt updates preserves a `global` mode when
every observed prompt classifies to `global`. -/
theorem foldl_discovery_mode_global (l : List String) (st : DevConnSt)
    (hm : st.mode = some "global") (hd : ∀ p ∈ l, updateConfigMode p = "global") :
    (l.foldl (fun s p => { s with prompt := some p, mode := some (updateConfigMode p) })
        st).mode = some "global" := by
  induction l generalizing st with
  | nil => exact hm
  | cons p ps ih =>
    refine ih _ ?_ ?_
    · simp [hd p (by simp)]
    · intro q hq
      exact hd q (by simp [hq])

/-- Helper: `discoverySends` preserves a `global` mode under the same premise. -/
theorem discoverySends_mode_global (env : DevConnEnv) (st : DevConnSt)
    (hm : st.mode = some "global")
    (hd : ∀ p ∈ env.discoveryPrompts, updateConfigMode p = "global") :
    (discoverySends env st).mode = some "global" :=
  foldl_discovery_mode_global env.discoveryPrompts st hm hd

/-- Helper: if the newline index is `j`, dropping `j + 1` characters is exactly
the spec's "second line onwards". -/
theorem drop_findNl_eq (l : List Char) (j : Nat) (hj : findNlIdx l = some j) :
    l.drop (j + 1) = dropFirstLineChars l := by
  induction l generalizing j with
  | nil => cases hj
  | cons c rest ih =>
    by_cases hc : c = '\n'
    · subst hc
      simp only [findNlIdx, if_pos rfl] at hj
      have hj0 : j = 0 := by
        cases hj
        rfl
      subst hj0
      simp [dropFirstLineChars]
    · simp only [findNlIdx, if_neg hc] at hj
      rcases Option.map_eq_some'.mp hj with ⟨j', hj', hjj⟩
      subst hjj
      simpa [dropFirstLineChars, hc] using ih j' hj'

/-- Helper: a list containing a newline has a newline index. -/
theorem findNlIdx_isSome (l : List Char) (h : '\n' ∈ l) : ∃ j, findNlIdx l = some j := by
  induction l with
  | nil => cases h
  | cons c rest ih =>
    by_cases hc : c = '\n'
    · exact ⟨0, by simp [findNlIdx, hc]⟩
    · rcases List.mem_cons.mp h with h1 | h2
      · exact absurd h1.symm hc
      · rcases ih h2 with ⟨j, hj⟩
        exact ⟨j + 1, by simp [findNlIdx, hc, hj]⟩

/-- Helper: the code's find-and-slice trimming agrees with the spec's
second-line-onwards reading whenever a newline is present. -/
theorem codeTrim_eq_spec (s : String) (h : '\n' ∈ (pyReplaceCR s).data) :
    pyDropChars (pyReplaceCR s) ((pyFindNl (pyReplaceCR s) + 1)).toNat =
      specSecondLineOnwards s := by
  rcases findNlIdx_isSome _ h with ⟨j, hj⟩
  have hdrop := drop_findNl_eq (pyReplaceCR s).data j hj
  have hfind : pyFindNl (pyReplaceCR s) = (j : Int) := by
    simp [pyFindNl, hj]
  have hto : ((j : Int) + 1).toNat = j + 1 := by omega
  simp only [pyDropChars, specSecondLineOnwards, hfind, hto, hdrop]

/-- Helper: lookup after a dict insert. -/
theorem tableLookup_insert {σ : Type} (tbl : FsmTable σ) (k k2 : Nat × Int) (v : FsmEntry σ) :
    tableLookup (tableInsert tbl k v) k2 = if k = k2 then some v else tableLookup tbl k2 := by
  by_cases h : k = k2
  · subst h
    simp [tableInsert, tableLookup]
  · simp [tableInsert, tableLookup, h]

/-- Helper: `findEventIndex` over an appended list. -/
theorem findEventIndex_append {P : Type} [DecidableEq P] (l1 l2 : List P) (p : P) :
    findEventIndex (l1 ++ l2) p =
      match findEventIndex l1 p with
      | some i => some i
      | none => (findEventIndex l2 p).map (· + l1.length) := by
  induction l1 with
  | nil =>
    simp only [List.nil_append, findEventIndex, List.length_nil]
    cases findEventIndex l2 p <;> simp
  | cons q l1 ih =>
    by_cases h : q = p
    · simp [findEventIndex, h]
    · simp only [List.cons_append, findEventIndex, if_neg h, List.length_cons]
      cases h1 : findEventIndex l1 p <;> cases h2 : findEventIndex l2 p
      all_goals simp [ih, h1, h2]
      all_goals omega

/-- Helper: `findEventIndex` misses exactly the absent patterns. -/
theorem findEventIndex_none {P : Type} [DecidableEq P] (l : List P) (p : P) (h : p ∉ l) :
    findEventIndex l p = none := by
  induction l with
  | nil => rfl
  | cons q l ih =>
    have hq : ¬q = p := fun e => h (e ▸ List.mem_cons_self q l)
    simp [findEventIndex, hq, ih (fun m => h (List.mem_cons_of_mem q m))]

/-- Helper: membership in the previous-prompt event block. -/
theorem mem_prevPromptEvents (n j : Nat) :
    WfsPattern.prevPrompt j ∈ prevPromptEvents n ↔ j < n := by
  induction n with
  | zero => simp [prevPromptEvents]
  | succ n ih =>
    simp only [prevPromptEvents, List.mem_append, List.mem_singleton,
      WfsPattern.prevPrompt.injEq, ih]
    omega

/-- Helper: length of the previous-prompt event block. -/
theorem prevPromptEvents_length (n : Nat) : (prevPromptEvents n).length = n := by
  induction n with
  | zero => rfl
  | succ n ih => simp [prevPromptEvents, ih]

/-- Helper: position of prompt `j` inside the previous-prompt block. -/
theorem findEventIndex_prevPromptEvents (n j : Nat) (h : j < n) :
    findEventIndex (prevPromptEvents n) (WfsPattern.prevPrompt j) = some j := by
  induction n with
  | zero => omega
  | succ n ih =>
    rw [prevPromptEvents, findEventIndex_append]
    by_cases hj : j < n
    · rw [ih hj]
    · have hj' : j = n := by omega
      subst hj'
      rw [findEventIndex_none _ _ (by simp [mem_prevPromptEvents])]
      simp [findEventIndex, prevPromptEvents_length]

/-- Helper: prompt `j` sits at event index `j + 9` of the `wait_for_string`
events. -/
theorem findEventIndex_wfs (N j : Nat) (h : j < N) :
    findEventIndex (wfsEvents N) (WfsPattern.prevPrompt j) = some (j + 9) := by
  rw [wfsEvents, findEventIndex_append]
  rw [findEventIndex_none _ _ (by simp)]
  rw [findEventIndex_prevPromptEvents N j h]
  rfl

/-- Helper: compiling the previous-hop row for prompt `n` writes its two
entries. -/
theorem compileRow_promptRow (N n : Nat) (h : n < N) (tbl : FsmTable WfsDevice) :
    compileRow (wfsEvents N) tbl
        ⟨WfsPattern.prevPrompt n, [0, 1], 0, FsmAction.fn aUnexpectedPrompt, 0⟩ =
      tableInsert (tableInsert tbl (n + 9, 0) (0, FsmAction.fn aUnexpectedPrompt, 0))
        (n + 9, 1) (0, FsmAction.fn aUnexpectedPrompt, 0) := by
  simp [compileRow, findEventIndex_wfs N n h]

/-- Helper: after folding the previous-hop rows, every prompt key `(j + 9, s)`
with `s ∈ {0, 1}` maps to the `a_unexpected_prompt` entry, whatever table the
fold started from. -/
theorem lookup_foldl_promptRows (N j : Nat) (s : Int) (hs : s = 0 ∨ s = 1) (n : Nat) :
    ∀ tbl : FsmTable WfsDevice, n ≤ N → j < n →
      tableLookup (List.foldl (compileRow (wfsEvents N)) tbl (wfsPromptRows n)) (j + 9, s) =
        some (0, FsmAction.fn aUnexpectedPrompt, 0) := by
  induction n with
  | zero =>
    intro tbl _ hj
    omega
  | succ n ih =>
    intro tbl hn hj
    rw [wfsPromptRows, List.foldl_append]
    simp only [List.foldl_cons, List.foldl_nil]
    rw [compileRow_promptRow N n (by omega), tableLookup_insert, tableLookup_insert]
    by_cases hjn : j = n
    · subst hjn
      rcases hs with h0 | h1
      · subst h0
        simp
      · subst h1
        simp
    · rw [if_neg (by simp only [Prod.mk.injEq]; intro hcon; omega),
        if_neg (by simp only [Prod.mk.injEq]; intro hcon; omega)]
      exact ih tbl (by omega) (by omega)

/-- Helper: the compiled `wait_for_string` table sends every previous-hop
prompt event, in state 0 or 1, to `a_unexpected_prompt`. -/
theorem wfs_table_lookup (env : WfsEnv) (devHost : Option String) (N j : Nat) (s : Int)
    (hj : j < N) (hs : s = 0 ∨ s = 1) :
    tableLookup (fsmCompile (wfsTransitions env devHost N) (wfsEvents N)) (j + 9, s) =
      some (0, FsmAction.fn aUnexpectedPrompt, 0) := by
  rw [fsmCompile, wfsTransitions, List.foldl_append]
  exact lookup_foldl_promptRows N j s hs N _ (le_refl N) hj

/-- C1 witness: the three failure-semantics clauses evaluated on a concrete
empty-table machine over `Nat` patterns and a `Unit` device. -/
theorem fsm_failure_semantics_witness :
    fsmRunLoop (P := Nat) (σ := Unit) [] [] 1 none [ExpectEvent.matched 0 "b" "a"] 5
        { device := (), ctrl := ⟨some "h", "", "", [], true⟩, event := none, state := 0,
          finished := false, msg := "", pattern := none } =
      fsmRunLoop (P := Nat) (σ := Unit) [] [] 0 none [] 5
        { device := (), ctrl := ⟨some "h", "b", "a", [], true⟩, event := some 0, state := 0,
          finished := false, msg := "", pattern := some 0 } :=
  (fsm_failure_semantics (P := Nat) (σ := Unit)).1 [] [] 0 0 "b" "a" [] 5
    { device := (), ctrl := ⟨some "h", "", "", [], true⟩, event := none, state := 0,
      finished := false, msg := "", pattern := none } rfl

/-- C2: with three chains and `last_chain_index = 1`, `_chain_indices` yields
`[2, 0, 1]` — `connect` therefore starts with chain 2, not with the last
successful chain 1 as the function's docstring and the spec state
(`deque.rotate` rotates to the right, so the sequence starts at `n - k`). -/
theorem chain_indices_rotate_bug :
    chainIndices 3 1 = [2, 0, 1] ∧ (chainIndices 3 1).head? ≠ some 1 := by
  decide

/-- C3: for a target device entering `connect` not yet connected, a successful
connect (given that the prompts matched during the discovery sends classify to
`global`) leaves the mode `global`; and when the captured login prompt
classifies to `config` or `admin`, connect returns `False`, tears the chain
down, and leaves the device unconnected. -/
theorem device_connect_global_mode (env : DevConnEnv) (st : DevConnSt)
    (ht : st.isTarget = true) (hc : st.connected = false)
    (hd : ∀ p ∈ env.discoveryPrompts, updateConfigMode p = "global") :
    ((deviceConnect env st).result = some true →
      (deviceConnect env st).st.mode = some "global")
    ∧ (updateConfigMode (capturedPrompt env st) ≠ "global" →
        env.protocolConnectOk = true → env.authOk = true →
        (deviceConnect env st).result = some false
        ∧ (deviceConnect env st).st.connected = false
        ∧ (deviceConnect env st).chainDisconnected = true) := by
  constructor
  · intro hres
    by_cases hp : env.protocolConnectOk
    · by_cases ha : env.authOk
      · by_cases hg : updateConfigMode (capturedPrompt env st) = "global"
        · simp only [deviceConnect, if_pos hp, if_pos ha, ht, if_pos rfl, hg, ne_eq,
            not_true_eq_false, if_false]
          exact discoverySends_mode_global env _ (by simp) hd
        · exfalso
          simp [deviceConnect, hp, ha, ht, hg] at hres
      · exfalso
        simp [deviceConnect, hp, ha] at hres
    · exfalso
      simp [deviceConnect, hp] at hres
  · intro hg hp ha
    refine ⟨?_, ?_, ?_⟩ <;> simp [deviceConnect, hp, ha, ht, hg, hc]

/-- C3 witness: a concrete target device with a `global` prompt and no
discovery sends connects with mode `global`. -/
theorem device_connect_global_mode_witness :
    (deviceConnect ⟨true, true, "router#", []⟩ ⟨none, false, none, true, none⟩).st.mode =
      some "global" :=
  (device_connect_global_mode ⟨true, true, "router#", []⟩ ⟨none, false, none, true, none⟩
      rfl rfl (by intro p hp; cases hp)).1 (by decide)

/-- C5: a `send` on a connected device whose `wait_for_string` succeeded
returns the CR-stripped captured output with everything through the first line
(the command echo) dropped; when a sub-dialog stored a non-empty
`last_command_result`, that value with the same trimming is returned instead. -/
theorem send_output_second_line_onwards (dev : SendDev) (cmd : String)
    (hc : dev.connected = true) :
    (∀ before : String, '\n' ∈ (pyReplaceCR before).data →
      (deviceSend dev cmd (WaitOutcome.returns true none before)).result =
        Except.ok (specSecondLineOnwards before))
    ∧ (∀ r before : String, r ≠ "" → '\n' ∈ (pyReplaceCR r).data →
      (deviceSend dev cmd (WaitOutcome.returns true (some r) before)).result =
        Except.ok (specSecondLineOnwards r)) := by
  constructor
  · intro before hmem
    have hsp := codeTrim_eq_spec before hmem
    simp [deviceSend, hc, deviceExecuteCommand, executeCommandOutput, hsp]
  · intro r before hr hmem
    have hsp := codeTrim_eq_spec r hmem
    simp [deviceSend, hc, deviceExecuteCommand, executeCommandOutput, hr, hsp]

/-- C5 witness: a concrete command echo plus one output line. -/
theorem send_output_second_line_onwards_witness :
    (deviceSend ⟨true, "host:23"⟩ "show clock"
        (WaitOutcome.returns true none "show clock\r\n12:00:00 UTC")).result =
      Except.ok (specSecondLineOnwards "show clock\r\n12:00:00 UTC") :=
  (send_output_second_line_onwards ⟨true, "host:23"⟩ "show clock" rfl).1
    "show clock\r\n12:00:00 UTC" (by decide)

/-- C6: a platform present in the registry that does not define a pattern name
falls back to the `generic` entry (the query then equals the `generic` query),
and a miss on both sides is a `KeyError` — never a null result. -/
theorem pattern_falls_back_to_generic (reg : PatternRegistry) (T k : String)
    (pats gens : List (String × String))
    (h1 : assocFind reg.platforms T = some pats)
    (h2 : assocFind pats k = none)
    (h3 : assocFind reg.platforms "generic" = some gens) :
    (assocFind gens k ≠ none → patternQuery reg T k = patternQuery reg "generic" k)
    ∧ (assocFind gens k = none →
        patternQuery reg T k =
          Except.error
            (Exc.keyError ("Patterns database corrupted. Platform: " ++ T ++ ", Key: " ++ k))) := by
  constructor
  · intro hne
    rcases Option.ne_none_iff_exists'.mp hne with ⟨v, hv⟩
    simp [patternQuery, platformPatterns, h1, h2, h3, hv]
  · intro hnone
    simp [patternQuery, platformPatterns, h1, h2, h3, hnone]

/-- C6 witness: a registry where platform `XR` lacks the `prompt` pattern and
`generic` provides it. -/
theorem pattern_falls_back_to_generic_witness :
    patternQuery ⟨[("generic", [("prompt", "G")]), ("XR", [("version", "V")])]⟩ "XR" "prompt" =
      patternQuery ⟨[("generic", [("prompt", "G")]), ("XR", [("version", "V")])]⟩
        "generic" "prompt" :=
  (pattern_falls_back_to_generic ⟨[("generic", [("prompt", "G")]), ("XR", [("version", "V")])]⟩
      "XR" "prompt" [("version", "V")] [("prompt", "G")] (by decide) (by decide) (by decide)).1
    (by decide)

/-- C7: a URL with a valid scheme but no host is accepted — `is_valid` checks
only the protocol, so no `InvalidHopInfoError` is raised for a missing host
(the telnet default port 23 is still applied); an unknown scheme does raise. -/
theorem hopinfo_missing_host_accepted :
    makeHopInfoFromUrl ⟨"telnet", none, none, none, none, "", []⟩ =
      Except.ok ⟨"telnet", none, none, none, none, some 23⟩
    ∧ makeHopInfoFromUrl ⟨"http", none, none, some "h", none, "", []⟩ =
      Except.error Exc.invalidHopInfoError := by
  decide

/-- C8: the enable password given as the URL path component is ignored — the
code reads only the `enable_password` query parameter, so the path form yields
no enable password while the query form works. -/
theorem hopinfo_path_enable_password_ignored :
    makeHopInfoFromUrl
        ⟨"telnet", some "cisco", some "cisco", some "1.2.3.4", none, "/secret", []⟩ =
      Except.ok ⟨"telnet", some "1.2.3.4", some "cisco", some "cisco", none, some 23⟩
    ∧ makeHopInfoFromUrl
        ⟨"telnet", some "cisco", some "cisco", some "1.2.3.4", none, "",
          [("enable_password", "secret")]⟩ =
      Except.ok
        ⟨"telnet", some "1.2.3.4", some "cisco", some "cisco", some "secret", some 23⟩ := by
  decide

/-- C4 counterexample: with one previous hop whose prompt `host1>` matches in
state 0, `wait_for_string` raises `ConnectionError` whose message is the fixed
string `Unable to connect to the device.` — the unexpected prompt does not
appear in that message (it is only recorded in the context message), refuting
the claim as stated. -/
theorem wfs_prompt_not_in_error_message :
    (wfsRun wfsEnvNop (some "target:23") 1
        ⟨true, "", "generic", "global", "target:23"⟩
        ⟨some "myhost", "", "", [], true⟩
        [ExpectEvent.matched 9 "" "host1>"] 60).result =
      Except.error (Exc.connectionError "Unable to connect to the device." (some "myhost"))
    ∧ strContainsSub "Unable to connect to the device." "host1>" = false := by
  exact ⟨rfl, rfl⟩

/-- C4 (amended): whenever a previous-hop prompt event arrives in state 0 or
1, the run is fatal — it raises `ConnectionError` with the fixed message
`Unable to connect to the device.`, records the unexpected prompt in the FSM
context message, and marks the device disconnected. -/
theorem wfs_unexpected_prompt_fatal (env : WfsEnv) (devHost : Option String)
    (N j : Nat) (hj : j < N) (fuel timeout : Nat) (b a : String) (rest : List ExpectEvent)
    (ctx : Ctx WfsDevice) (hs : ctx.state = 0 ∨ ctx.state = 1) :
    fsmRunLoop (wfsEvents N) (fsmCompile (wfsTransitions env devHost N) (wfsEvents N))
        (fuel + 1) none (ExpectEvent.matched (j + 9) b a :: rest) timeout ctx =
      ⟨Except.error (Exc.connectionError "Unable to connect to the device." ctx.ctrl.hostname),
       { ctx with event := some (j + 9), pattern := some (j + 9),
                  ctrl := { ctx.ctrl with before := b, after := a },
                  msg := "Received the jump host prompt: '" ++ a ++ "'",
                  device := { ctx.device with connected := false },
                  finished := true }⟩ := by
  have hlk := wfs_table_lookup env devHost N j ctx.state hj hs
  simp only [fsmRunLoop, fsmAcquire, Option.getD_some, hlk, aUnexpectedPrompt]

/-- C4 witness: the amended statement at one previous hop, prompt `jump$ `,
state 0. -/
theorem wfs_unexpected_prompt_fatal_witness :
    fsmRunLoop (wfsEvents 1)
        (fsmCompile (wfsTransitions wfsEnvNop (some "dev:23") 1) (wfsEvents 1))
        (0 + 1) none (ExpectEvent.matched (0 + 9) "x" "jump$ " :: []) 60
        ⟨⟨true, "", "generic", "global", "dev:23"⟩, ⟨some "tgt", "", "", [], true⟩,
         none, 0, false, "", none⟩ =
      ⟨Except.error (Exc.connectionError "Unable to connect to the device." (some "tgt")),
       ⟨⟨false, "", "generic", "global", "dev:23"⟩, ⟨some "tgt", "x", "jump$ ", [], true⟩,
        some (0 + 9), 0, true, "Received the jump host prompt: 'jump$ '", some (0 + 9)⟩⟩ :=
  wfs_unexpected_prompt_fatal wfsEnvNop (some "dev:23") 1 0 (by decide) 0 60 "x" "jump$ " []
    ⟨⟨true, "", "generic", "global", "dev:23"⟩, ⟨some "tgt", "", "", [], true⟩,
     none, 0, false, "", none⟩ (Or.inl rfl)

/-- C9: an SSH connect run observing `modulus too small` does not respawn with
`-1`: the fallback action accesses `ctx.spawn_session`, an attribute the FSM
context does not define, so the run dies with `AttributeError` and no SSHv1
spawn happens — even though `get_command(version=1)` would carry the `-1`
flag. -/
theorem ssh_fallback_attribute_error :
    (sshConnect (some "10.0.0.1") (some "admin") 22 "10.0.0.1" ⟨[], none, none⟩
        ⟨some "10.0.0.1", "", "", [], true⟩
        [ExpectEvent.matched 6 "" "modulus too small"] 60).result =
      Except.error (Exc.attributeError "spawn_session")
    ∧ (sshConnect (some "10.0.0.1") (some "admin") 22 "10.0.0.1" ⟨[], none, none⟩
        ⟨some "10.0.0.1", "", "", [], true⟩
        [ExpectEvent.matched 6 "" "modulus too small"] 60).ctx.device.spawns = []
    ∧ strContainsSub (sshGetCommand (some "admin") 22 "10.0.0.1" 1) " -1 " = true := by
  exact ⟨rfl, rfl, rfl⟩

/-- C10: `send` on a device whose connected flag is false raises
`ConnectionError("Device not connected")`, writes nothing to the controller
and leaves the device state unchanged. -/
theorem send_not_connected_raises (dev : SendDev) (cmd : String) (w : WaitOutcome)
    (h : dev.connected = false) :
    deviceSend dev cmd w =
      ⟨Except.error (Exc.connectionError "Device not connected" (some dev.hostname)),
       dev, []⟩ := by
  simp [deviceSend, h]

/-- C10 witness: concrete disconnected device. -/
theorem send_not_connected_raises_witness :
    deviceSend ⟨false, "host:23"⟩ "show clock" (WaitOutcome.returns true none "") =
      ⟨Except.error (Exc.connectionError "Device not connected" (some "host:23")),
       ⟨false, "host:23"⟩, []⟩ :=
  send_not_connected_raises ⟨false, "host:23"⟩ "show clock"
    (WaitOutcome.returns true none "") rfl

end Condoor
